import Mathlib

/-!
Verification of the JDAS industry-updates backend (src/app.py): a shallow
embedding of its token manager, retrying page fetcher, response cache,
row normalizer and industry aggregator, together with theorems settling
the specification's claims about them.

Timestamps are modelled as integer seconds; backoff delays as integer
milliseconds (the source's 0.2/0.5/1.0/2.0 second ladder becomes
200/500/1000/2000).
-/

namespace JDAS

/-- Python truthiness of an optional string: None and the empty string are falsy. -/
def pyTruthyStr : Option String → Bool
  | none => false
  | some s => s != ""

/-! ### Response cache (src/app.py: cache_fresh, fetch_table_all_columns) -/

/-- Source cache_fresh(ts, ttl) = (now_s() - ts) < ttl, with the current time
made an explicit argument. -/
def cache_fresh (now ts ttl : Int) : Bool :=
  decide (now - ts < ttl)

/-- Result of one cache-consulting fetch: the outcome, the cache afterwards,
and whether the upstream fetch was performed. -/
structure FetchStep (ε α : Type) where
  rows : Except ε α
  cache : List (String × Int × α)
  hitUpstream : Bool

/-- The cache-consulting core of fetch_table_all_columns (src/app.py 460-467):
a fresh entry is served from the cache without touching upstream; otherwise the
upstream fetch runs, its payload is stored with the current timestamp on
success, and on failure the error propagates with the cache untouched.  The
cache is an association list whose first binding for a key is the current one
(a dict assignment prepends a fresh binding); the upstream fetch's outcome
enters as a value and hitUpstream records whether it was consumed. -/
def getOrFetch {ε α : Type} (cache : List (String × Int × α)) (key : String)
    (now ttl : Int) (fetchFn : Except ε α) : FetchStep ε α :=
  match cache.lookup key with
  | some (ts, data) =>
    if cache_fresh now ts ttl then ⟨Except.ok data, cache, false⟩
    else
      match fetchFn with
      | Except.ok rows => ⟨Except.ok rows, (key, now, rows) :: cache, true⟩
      | Except.error e => ⟨Except.error e, cache, true⟩
  | none =>
    match fetchFn with
    | Except.ok rows => ⟨Except.ok rows, (key, now, rows) :: cache, true⟩
    | Except.error e => ⟨Except.error e, cache, true⟩

/-- Source line 460: the cache key
f"[table_key]|[entity_set]|[top]|[orderby]|[extra or '']|ALL" (interpolations
shown in square brackets); extra or '' maps both None and the empty string to
the empty string, and the integer top is rendered in decimal. -/
def cacheKey (table_key entity_set : String) (top : Nat) (orderby : String)
    (extra : Option String) : String :=
  table_key ++ "|" ++ entity_set ++ "|" ++ Nat.repr top ++ "|" ++ orderby
    ++ "|" ++ extra.getD "" ++ "|ALL"

/-! ### Token manager (src/app.py: fetch_access_token, get_access_token) -/

/-- Source line 109: _SKEW = 60 seconds. -/
def tokenSkew : Int := 60

/-- The token manager's shared state: _token_cache.get("token") and
_token_expiry_ts. -/
structure TokenState where
  token : Option String
  expiry : Int
deriving Repr, DecidableEq

/-- The identity provider's response to a credential exchange: HTTP status,
access_token, and j.get("expires_in", 3600) before the default is applied. -/
structure TokenExchange where
  status : Nat
  access_token : String
  expires_in : Option Int
deriving Repr, DecidableEq

/-- Source fetch_access_token (lines 139-159): non-200 raises HTTPException
502; otherwise the token is stored and the expiry becomes
now + max(60, expires_in - _SKEW) with expires_in defaulting to 3600. -/
def fetch_access_token (now : Int) (x : TokenExchange) :
    Except Nat (String × TokenState) :=
  if x.status ≠ 200 then Except.error 502
  else
    let expires_in := x.expires_in.getD 3600
    Except.ok (x.access_token, ⟨some x.access_token, now + max 60 (expires_in - tokenSkew)⟩)

/-- Source get_access_token (lines 162-167): if the cached token is falsy or
now_s() >= _token_expiry_ts, perform the exchange (the Bool in the result marks
the network call); otherwise return the cached token with the state unchanged. -/
def get_access_token (st : TokenState) (now : Int) (x : TokenExchange) :
    Except Nat (String × TokenState × Bool) :=
  if !pyTruthyStr st.token || decide (now ≥ st.expiry) then
    match fetch_access_token now x with
    | Except.ok (t, st') => Except.ok (t, st', true)
    | Except.error e => Except.error e
  else Except.ok (st.token.getD "", st, false)

/-! ### Single GET with retry/backoff (src/app.py: dv_get_json, lines 203-234) -/

/-- What one upstream GET yields: a transport-level timeout exception
(httpx.ReadTimeout / ConnectTimeout / RemoteProtocolError) or an HTTP response
with a status code and a parsed JSON body (abstracted to a Nat). -/
inductive GetResult where
  | timeout : GetResult
  | resp (status : Nat) (body : Nat) : GetResult
deriving Repr, DecidableEq

/-- The HTTPException outcomes dv_get_json can raise: an upstream error
carrying the response status (line 226), the 504 timeout after exhausting the
ladder with a recorded transport exception (line 233), and the 503
unavailable-after-retries otherwise (line 234). -/
inductive DvError where
  | upstreamError (status : Nat) : DvError
  | upstreamTimeout : DvError
  | upstreamUnavailable : DvError
deriving Repr, DecidableEq

/-- Source line 205: delays = [0.2, 0.5, 1.0, 2.0] seconds, in milliseconds. -/
def DELAYS : List Nat := [200, 500, 1000, 2000]

/-- Source line 222: the statuses retried with backoff. -/
def RETRYABLE : List Nat := [429, 500, 502, 503, 504]

/-- Trace of one dv_get_json call: its outcome, how many GETs were issued, how
many credential refreshes the 401 handler performed, and the backoff delays
actually slept (ms). -/
structure DvTrace where
  result : Except DvError Nat
  requests : Nat
  refreshes : Nat
  sleeps : List Nat
deriving Repr

/-- The retry loop of dv_get_json.  The upstream is a stream of GET outcomes
indexed by request number; reqs counts GETs issued so far, refs counts
credential refreshes, sleeps lists the delays slept, and hadTimeout mirrors
last_exc, which is set by any transport exception and never cleared.  A 401
refreshes the credential once (the refresh itself is modelled as succeeding)
and retries the same page immediately; the retried response then goes through
the same 200 / retryable / raise classification.  Exhausting the delay list
raises the 504 timeout if hadTimeout is set and the 503 unavailable error
otherwise. -/
def dvAttempts (events : Nat → GetResult) :
    List Nat → Nat → Nat → List Nat → Bool → DvTrace
  | [], reqs, refs, sleeps, hadTimeout =>
    ⟨Except.error (if hadTimeout then DvError.upstreamTimeout
        else DvError.upstreamUnavailable), reqs, refs, sleeps⟩
  | delay :: rest, reqs, refs, sleeps, hadTimeout =>
    match events reqs with
    | GetResult.timeout =>
      dvAttempts events rest (reqs + 1) refs (sleeps ++ [delay]) true
    | GetResult.resp 401 _ =>
      match events (reqs + 1) with
      | GetResult.timeout =>
        dvAttempts events rest (reqs + 2) (refs + 1) (sleeps ++ [delay]) true
      | GetResult.resp st b =>
        if st = 200 then ⟨Except.ok b, reqs + 2, refs + 1, sleeps⟩
        else if st ∈ RETRYABLE then
          dvAttempts events rest (reqs + 2) (refs + 1) (sleeps ++ [delay]) hadTimeout
        else ⟨Except.error (DvError.upstreamError st), reqs + 2, refs + 1, sleeps⟩
    | GetResult.resp st b =>
      if st = 200 then ⟨Except.ok b, reqs + 1, refs, sleeps⟩
      else if st ∈ RETRYABLE then
        dvAttempts events rest (reqs + 1) refs (sleeps ++ [delay]) hadTimeout
      else ⟨Except.error (DvError.upstreamError st), reqs + 1, refs, sleeps⟩

/-- dv_get_json on a stream of upstream GET outcomes. -/
def dv_get_json (events : Nat → GetResult) : DvTrace :=
  dvAttempts events DELAYS 0 0 [] false

/-- An attempt outcome that the loop retries with backoff: a transport timeout
or a retryable HTTP status (which is never 200 or 401). -/
def retriedOutcome (r : GetResult) : Prop :=
  r = GetResult.timeout ∨ ∃ st b, r = GetResult.resp st b ∧ st ∈ RETRYABLE

/-! ### Python string primitives

Lean's String.trim and String comparison do not reduce under the kernel, so
the embedding carries its own executable versions with the same meaning:
strip removes leading and trailing whitespace, and strings compare
lexicographically by code point. -/

/-- Python str.strip() on a character list. -/
def pyStripList (cs : List Char) : List Char :=
  ((cs.dropWhile fun c => c.isWhitespace).reverse.dropWhile
    fun c => c.isWhitespace).reverse

/-- Python str.strip() on strings. -/
def pyStrip (s : String) : String := ⟨pyStripList s.data⟩

/-- Python string less-than: lexicographic by code point. -/
def pyStrLtList : List Char → List Char → Bool
  | [], [] => false
  | [], _ :: _ => true
  | _ :: _, [] => false
  | a :: as, b :: bs =>
    if a.toNat < b.toNat then true
    else if b.toNat < a.toNat then false
    else pyStrLtList as bs

/-- Python string less-or-equal: a <= b iff not (b < a). -/
def pyStrLe (a b : String) : Bool := !(pyStrLtList b.data a.data)

/-! ### Row normalization (src/app.py: _safe_text, _guess_id, normalize_row) -/

/-- A Python value as it appears in a Dataverse row: None, a string, or some
other scalar (abstracted to an integer, rendered by str()). -/
inductive PyVal where
  | vnone : PyVal
  | vstr (s : String) : PyVal
  | vint (n : Int) : PyVal
deriving Repr, DecidableEq

/-- A raw Dataverse row: field names to values, keys unique. -/
def Row : Type := List (String × PyVal)

/-- row.get(k): None when the key is absent. -/
def row_get (row : Row) (k : String) : PyVal :=
  match List.lookup k row with
  | some v => v
  | none => PyVal.vnone

/-- k in row. -/
def row_has (row : Row) (k : String) : Bool := (List.lookup k row).isSome

/-- mapping.get(k, d) for a string-valued dict. -/
def dict_get (m : List (String × String)) (k d : String) : String :=
  match List.lookup k m with
  | some v => v
  | none => d

/-- Source _safe_text (lines 376-382): None stays absent; a string is
stripped, with empty-after-strip treated as absent; any other value is
rendered with str() and stripped likewise. -/
def _safe_text : PyVal → Option String
  | PyVal.vnone => none
  | PyVal.vstr s => let t := pyStrip s; if t = "" then none else some t
  | PyVal.vint n => let t := pyStrip (Int.repr n); if t = "" then none else some t

/-- Source TABLE_REGISTRY (lines 284-293); each entry in the source is a
one-field dict, so the registry maps table key directly to the value of its
"logical" field. -/
def TABLE_REGISTRY : List (String × String) := [
  ("marketinsight", "jdas_marketinsight"),
  ("housingmarketinsight", "jdas_housingmarketinsight"),
  ("vehiclesalesforecast", "jdas_vehiclesalesforecast"),
  ("analyticsparadigm", "jdas_analyticsparadigm"),
  ("marketoutlook", "jdas_marketoutlook"),
  ("markettrendinsight", "jdas_markettrendinsight"),
  ("marketanalysis", "jdas_marketanalysis"),
  ("aiindustryinsight", "jdas_aiindustryinsight")]

/-- Source TABLE_DISPLAY_NAMES (lines 316-325). -/
def TABLE_DISPLAY_NAMES : List (String × String) := [
  ("marketinsight", "Market Insight"),
  ("housingmarketinsight", "Housing Market Insight"),
  ("vehiclesalesforecast", "Vehicle Sales Forecast"),
  ("analyticsparadigm", "Analytics Paradigm"),
  ("marketoutlook", "Market Outlook"),
  ("markettrendinsight", "Market Trend Insight"),
  ("marketanalysis", "Market Analysis"),
  ("aiindustryinsight", "AI Industry Insight")]

/-- Source TABLE_MAPPINGS (lines 327-373): per-table field mapping. -/
def TABLE_MAPPINGS : List (String × List (String × String)) := [
  ("marketinsight", [
    ("title", "jdas_marketcategory"),
    ("subtitle", "jdas_marketsizeoverview"),
    ("body", "jdas_markettrends"),
    ("details", "jdas_businessimpactanalysis")]),
  ("housingmarketinsight", [
    ("title", "jdas_insighttheme"),
    ("subtitle", "jdas_insightcategory"),
    ("body", "jdas_currentinsight"),
    ("details", "jdas_keymarketimplication")]),
  ("vehiclesalesforecast", [
    ("title", "jdas_salesmetric"),
    ("subtitle", "jdas_salesvolumeforecast"),
    ("body", "jdas_strategicinsight")]),
  ("analyticsparadigm", [
    ("title", "jdas_analyticsfocus"),
    ("subtitle", "jdas_dimension"),
    ("body", "jdas_significance"),
    ("tag", "jdas_paradigmstage")]),
  ("marketoutlook", [
    ("title", "jdas_category"),
    ("subtitle", "jdas_outlookstatus"),
    ("body", "jdas_keydrivers"),
    ("details", "jdas_operationalimpact")]),
  ("markettrendinsight", [
    ("title", "jdas_keysignal"),
    ("subtitle", "jdas_insightcategory"),
    ("body", "jdas_trendfor2026")]),
  ("marketanalysis", [
    ("title", "jdas_theme"),
    ("subtitle", "jdas_industryreality2026"),
    ("body", "jdas_futureimplications")]),
  ("aiindustryinsight", [
    ("title", "jdas_insightcategory"),
    ("subtitle", "jdas_industryphasedescription"),
    ("body", "jdas_assistantperspective"),
    ("details", "jdas_futureunifiedview")])]

/-- The generic id-field loop at the end of _guess_id (lines 396-398): the
first of "id", "Id", "ID" present in the row, else absent. -/
def genericId (row : Row) : Option String :=
  match ["id", "Id", "ID"].find? (fun k => row_has row k) with
  | some k => _safe_text (row_get row k)
  | none => none

/-- Source _guess_id (lines 385-399): when the registry knows the table and
the row has the conventional primary key field logical + "id", its text is the
id; otherwise the generic id fields are tried. -/
def _guess_id (row : Row) (table_key : String) : Option String :=
  match List.lookup table_key TABLE_REGISTRY with
  | some logical =>
    if logical != "" && row_has row (logical ++ "id") then
      _safe_text (row_get row (logical ++ "id"))
    else genericId row
  | none => genericId row

/-- The normalized card built by normalize_row; title is required and
non-empty by construction. -/
structure Card where
  id : Option String
  table : Option String
  logical : Option String
  table_key : String
  table_name : String
  title : String
  subtitle : Option String
  body : Option String
  details : Option String
  tag : Option String
  createdOn : Option String
deriving Repr, DecidableEq

/-- Source normalize_row (lines 402-439): look up the table's field mapping
(unknown table yields nothing), extract each text with _safe_text, drop the
row when no usable title results, otherwise build the card; details and tag
are read only when the mapping declares a truthy field name for them. -/
def normalize_row (row : Row) (table_key : String) : Option Card :=
  match List.lookup table_key TABLE_MAPPINGS with
  | none => none
  | some mapping =>
    let title := _safe_text (row_get row (dict_get mapping "title" ""))
    let subtitle := _safe_text (row_get row (dict_get mapping "subtitle" ""))
    let body := _safe_text (row_get row (dict_get mapping "body" ""))
    let details := if pyTruthyStr (List.lookup "details" mapping)
      then _safe_text (row_get row (dict_get mapping "details" "")) else none
    let tag := if pyTruthyStr (List.lookup "tag" mapping)
      then _safe_text (row_get row (dict_get mapping "tag" "")) else none
    match title with
    | none => none
    | some t =>
      let logical := List.lookup table_key TABLE_REGISTRY
      some ⟨_guess_id row table_key, logical, logical, table_key,
        dict_get TABLE_DISPLAY_NAMES table_key table_key,
        t, subtitle, body, details, tag, _safe_text (row_get row "createdon")⟩

/-! ### Industry aggregation (src/app.py: summary_industry_single 644-689 and
the identical per-industry loop of industry_updates 554-598) -/

/-- Source _created_key (lines 550-552, 644-645): item.get("createdOn")
or "". -/
def _created_key (c : Card) : String := c.createdOn.getD ""

/-- One per-table status entry of the tables list. -/
structure TableMeta where
  table_key : String
  ok : Bool
  table_name : Option String
  logical : Option String
  count_cards : Option Nat
  error : Option String
deriving Repr, DecidableEq

/-- The successful payload of fetch_table_cards for one table, as the
aggregator reads it (the source dict also carries ok=True, entity_set and
count_raw, which the loop does not copy into the block). -/
structure CardsPayload where
  table_name : String
  logical : Option String
  count_cards : Nat
  items : List Card
deriving Repr, DecidableEq

/-- One loop iteration over zip(table_keys, results): an exception becomes a
failed status entry carrying the error text; a payload becomes an ok entry
carrying its card count. -/
def table_meta (pr : String × Except String CardsPayload) : TableMeta :=
  match pr.2 with
  | Except.error e => ⟨pr.1, false, none, none, none, some e⟩
  | Except.ok p => ⟨pr.1, true, some p.table_name, p.logical, some p.count_cards, none⟩

/-- The cards one table contributes to combined: nothing on failure. -/
def ok_items (pr : String × Except String CardsPayload) : List Card :=
  match pr.2 with
  | Except.error _ => []
  | Except.ok p => p.items

/-- The industry block returned for one industry. -/
structure Block where
  ok : Bool
  tables : List TableMeta
  count_cards : Nat
  items : List Card
deriving Repr

/-- The aggregation core shared by summary_industry_single and
industry_updates: per-table fetch outcomes (exception or payload) in member
order become one status entry each; the successful payloads' cards are
concatenated and sorted by combined.sort(key=_created_key, reverse=True) — a
stable sort, descending on the created key. -/
def aggregate_industry (pairs : List (String × Except String CardsPayload)) :
    Block :=
  let tables_meta := pairs.map table_meta
  let combined := (pairs.map ok_items).flatten
  let sorted := combined.mergeSort
    (fun a b => pyStrLe (_created_key b) (_created_key a))
  ⟨true, tables_meta, sorted.length, sorted⟩

end JDAS

namespace JDAS

/-- One retried attempt consumes one delay, one event, and records a timeout
in the hadTimeout flag when the failure was transport-level. -/
theorem dvAttempts_step_fail (events : Nat → GetResult) (delay : Nat)
    (rest : List Nat) (reqs refs : Nat) (sleeps : List Nat) (hadTimeout : Bool)
    (h : retriedOutcome (events reqs)) :
    dvAttempts events (delay :: rest) reqs refs sleeps hadTimeout =
      dvAttempts events rest (reqs + 1) refs (sleeps ++ [delay])
        (hadTimeout || decide (events reqs = GetResult.timeout)) := by
  rcases h with h | ⟨st, b, h, hmem⟩
  · rw [dvAttempts, h]
    simp [h]
  · have : st = 429 ∨ st = 500 ∨ st = 502 ∨ st = 503 ∨ st = 504 := by
      simpa [RETRYABLE] using hmem
    rcases this with rfl | rfl | rfl | rfl | rfl <;>
      · rw [dvAttempts, h]
        simp [h, RETRYABLE]

/-- C2 counterexample: a page fetch whose first attempt fails with a
transport timeout and whose three remaining attempts all return HTTP 503.
The LAST failure is a 503, not a timeout, so the claim predicts the
unavailable error; the code raises the 504 upstream-timeout error, because
last_exc is set by the first attempt and never cleared. -/
theorem retry_ladder_last_failure_counterexample :
    (dv_get_json (fun i => if i = 0 then GetResult.timeout
        else GetResult.resp 503 0)).result =
      Except.error DvError.upstreamTimeout ∧
    (fun i => if i = 0 then GetResult.timeout else GetResult.resp 503 0) 3 =
      GetResult.resp 503 0 ∧
    DvError.upstreamTimeout ≠ DvError.upstreamUnavailable :=
  ⟨rfl, rfl, by decide⟩

/-- C2 (amended): three 503 responses followed by a 200 make the page fetch
succeed with exactly 4 requests, no credential refresh, and the leading
backoff delays 0.2s/0.5s/1.0s slept; and when the first four attempts all fail with
retried outcomes (timeout or retryable status), the fetch issues exactly 4
requests and fails — with the upstream-timeout error if any attempt was a
transport timeout, and the unavailable error otherwise. -/
theorem retry_ladder (ev ev2 : Nat → GetResult) (b0 b1 b2 b3 : Nat)
    (h0 : ev 0 = GetResult.resp 503 b0) (h1 : ev 1 = GetResult.resp 503 b1)
    (h2 : ev 2 = GetResult.resp 503 b2) (h3 : ev 3 = GetResult.resp 200 b3)
    (hfail : ∀ i, i < 4 → retriedOutcome (ev2 i)) :
    dv_get_json ev = ⟨Except.ok b3, 4, 0, [200, 500, 1000]⟩ ∧
    (dv_get_json ev2).requests = 4 ∧
    ((∃ i, i < 4 ∧ ev2 i = GetResult.timeout) →
      (dv_get_json ev2).result = Except.error DvError.upstreamTimeout) ∧
    ((∀ i, i < 4 → ev2 i ≠ GetResult.timeout) →
      (dv_get_json ev2).result = Except.error DvError.upstreamUnavailable) := by
  have s0 : dvAttempts ev2 [200, 500, 1000, 2000] 0 0 [] false
      = dvAttempts ev2 [500, 1000, 2000] 1 0 [200]
        (false || decide (ev2 0 = GetResult.timeout)) := by
    simpa using dvAttempts_step_fail ev2 200 [500, 1000, 2000] 0 0 [] false
      (hfail 0 (by omega))
  have s1 : dvAttempts ev2 [500, 1000, 2000] 1 0 [200]
        (false || decide (ev2 0 = GetResult.timeout))
      = dvAttempts ev2 [1000, 2000] 2 0 [200, 500]
        ((false || decide (ev2 0 = GetResult.timeout))
          || decide (ev2 1 = GetResult.timeout)) := by
    simpa using dvAttempts_step_fail ev2 500 [1000, 2000] 1 0 [200] _
      (hfail 1 (by omega))
  have s2 : dvAttempts ev2 [1000, 2000] 2 0 [200, 500]
        ((false || decide (ev2 0 = GetResult.timeout))
          || decide (ev2 1 = GetResult.timeout))
      = dvAttempts ev2 [2000] 3 0 [200, 500, 1000]
        (((false || decide (ev2 0 = GetResult.timeout))
          || decide (ev2 1 = GetResult.timeout))
          || decide (ev2 2 = GetResult.timeout)) := by
    simpa using dvAttempts_step_fail ev2 1000 [2000] 2 0 [200, 500] _
      (hfail 2 (by omega))
  have s3 : dvAttempts ev2 [2000] 3 0 [200, 500, 1000]
        (((false || decide (ev2 0 = GetResult.timeout))
          || decide (ev2 1 = GetResult.timeout))
          || decide (ev2 2 = GetResult.timeout))
      = dvAttempts ev2 [] 4 0 [200, 500, 1000, 2000]
        ((((false || decide (ev2 0 = GetResult.timeout))
          || decide (ev2 1 = GetResult.timeout))
          || decide (ev2 2 = GetResult.timeout))
          || decide (ev2 3 = GetResult.timeout)) := by
    simpa using dvAttempts_step_fail ev2 2000 [] 3 0 [200, 500, 1000] _
      (hfail 3 (by omega))
  have key : dv_get_json ev2 =
      ⟨Except.error (if ((((false || decide (ev2 0 = GetResult.timeout))
          || decide (ev2 1 = GetResult.timeout))
          || decide (ev2 2 = GetResult.timeout))
          || decide (ev2 3 = GetResult.timeout)) then DvError.upstreamTimeout
        else DvError.upstreamUnavailable), 4, 0, [200, 500, 1000, 2000]⟩ := by
    show dvAttempts ev2 DELAYS 0 0 [] false = _
    rw [show DELAYS = [200, 500, 1000, 2000] from rfl, s0, s1, s2, s3, dvAttempts]
  refine ⟨?_, ?_, ?_, ?_⟩
  · simp [dv_get_json, DELAYS, dvAttempts, h0, h1, h2, h3, RETRYABLE]
  · rw [key]
  · rintro ⟨i, hi, hti⟩
    rw [key]
    interval_cases i <;> simp [hti]
  · intro hall
    rw [key]
    simp [hall 0 (by omega), hall 1 (by omega), hall 2 (by omega),
      hall 3 (by omega)]

/-- Witness for C2's amended theorem: a stream with three 503s then a 200 body
9, and a stream of unbroken 503s. -/
theorem retry_ladder_witness :
    dv_get_json (fun i => if i < 3 then GetResult.resp 503 0
        else GetResult.resp 200 9) = ⟨Except.ok 9, 4, 0, [200, 500, 1000]⟩ ∧
    (dv_get_json (fun _ => GetResult.resp 503 0)).result =
      Except.error DvError.upstreamUnavailable := by
  have h := retry_ladder
    (fun i => if i < 3 then GetResult.resp 503 0 else GetResult.resp 200 9)
    (fun _ => GetResult.resp 503 0) 0 0 0 9 rfl rfl rfl rfl
    (by
      intro i hi
      exact Or.inr ⟨503, 0, rfl, by simp [RETRYABLE]⟩)
  exact ⟨h.1, h.2.2.2 (by intro i hi; simp)⟩

/-- C3: within one page request, a 401 answered by 200 on the immediate retry
yields exactly one credential refresh, two GETs, a successful retrieval, and
no backoff sleep (the retry is not counted against the ladder); a 401 answered
by another 401 fails with the upstream 401 authorization error after the
single refresh and two GETs, without refreshing again or looping. -/
theorem refresh_once_on_401 (ev : Nat → GetResult) (b0 b1 : Nat)
    (h0 : ev 0 = GetResult.resp 401 b0) :
    (ev 1 = GetResult.resp 200 b1 →
      dv_get_json ev = ⟨Except.ok b1, 2, 1, []⟩) ∧
    (ev 1 = GetResult.resp 401 b1 →
      dv_get_json ev = ⟨Except.error (DvError.upstreamError 401), 2, 1, []⟩) := by
  constructor <;> intro h1 <;>
    simp [dv_get_json, DELAYS, dvAttempts, h0, h1, RETRYABLE]

/-- Witness for C3: a 401 with body 5 followed by a 200 with body 7. -/
theorem refresh_once_on_401_witness :
    dv_get_json (fun i => if i = 0 then GetResult.resp 401 5
        else GetResult.resp 200 7) = ⟨Except.ok 7, 2, 1, []⟩ :=
  (refresh_once_on_401
    (fun i => if i = 0 then GetResult.resp 401 5 else GetResult.resp 200 7)
    5 7 rfl).1 rfl

/-- C1: starting from an empty cache, the first cached fetch hits upstream
and stores the payload; a second call within the TTL window (t1 - t0 < ttl) is
served from the cached payload with no upstream call; a call after the TTL has
elapsed (t2 - t0 >= ttl) hits upstream a second time and returns the newly
fetched payload.  Freshness is exactly cache_fresh, i.e. now - ts < ttl. -/
theorem cache_ttl_single_upstream_fetch {α : Type} (key : String)
    (ttl t0 t1 t2 : Int) (d1 d2 : α)
    (hfresh : t1 - t0 < ttl) (hstale : ttl ≤ t2 - t0) :
    (getOrFetch ([] : List (String × Int × α)) key t0 ttl
        (Except.ok d1 : Except Unit α)).hitUpstream = true ∧
    (getOrFetch (getOrFetch ([] : List (String × Int × α)) key t0 ttl
        (Except.ok d1 : Except Unit α)).cache key t1 ttl
        (Except.ok d2 : Except Unit α)).hitUpstream = false ∧
    (getOrFetch (getOrFetch ([] : List (String × Int × α)) key t0 ttl
        (Except.ok d1 : Except Unit α)).cache key t1 ttl
        (Except.ok d2 : Except Unit α)).rows = Except.ok d1 ∧
    (getOrFetch (getOrFetch ([] : List (String × Int × α)) key t0 ttl
        (Except.ok d1 : Except Unit α)).cache key t2 ttl
        (Except.ok d2 : Except Unit α)).hitUpstream = true ∧
    (getOrFetch (getOrFetch ([] : List (String × Int × α)) key t0 ttl
        (Except.ok d1 : Except Unit α)).cache key t2 ttl
        (Except.ok d2 : Except Unit α)).rows = Except.ok d2 := by
  have h2 : ¬ (t2 - t0 < ttl) := not_lt.mpr hstale
  simp [getOrFetch, cache_fresh, hfresh, h2]

/-- Witness for C1 at key "k", ttl 120, call times 0, 60 and 120. -/
theorem cache_ttl_single_upstream_fetch_witness :
    (getOrFetch ([] : List (String × Int × List Nat)) "k" 0 120
        (Except.ok [1] : Except Unit (List Nat))).hitUpstream = true ∧
    (getOrFetch (getOrFetch ([] : List (String × Int × List Nat)) "k" 0 120
        (Except.ok [1] : Except Unit (List Nat))).cache "k" 60 120
        (Except.ok [2] : Except Unit (List Nat))).hitUpstream = false ∧
    (getOrFetch (getOrFetch ([] : List (String × Int × List Nat)) "k" 0 120
        (Except.ok [1] : Except Unit (List Nat))).cache "k" 60 120
        (Except.ok [2] : Except Unit (List Nat))).rows = Except.ok [1] ∧
    (getOrFetch (getOrFetch ([] : List (String × Int × List Nat)) "k" 0 120
        (Except.ok [1] : Except Unit (List Nat))).cache "k" 120 120
        (Except.ok [2] : Except Unit (List Nat))).hitUpstream = true ∧
    (getOrFetch (getOrFetch ([] : List (String × Int × List Nat)) "k" 0 120
        (Except.ok [1] : Except Unit (List Nat))).cache "k" 120 120
        (Except.ok [2] : Except Unit (List Nat))).rows = Except.ok [2] :=
  cache_ttl_single_upstream_fetch "k" 120 0 60 120 [1] [2] (by decide) (by decide)

/-- C7: when the cache has no fresh entry for the key (miss or stale), a
failing upstream fetch leaves the cache exactly as it was and propagates the
error, while a successful fetch stores the entry (key, now, payload); an entry
is created only on success. -/
theorem failed_fetch_not_cached {ε α : Type}
    (cache : List (String × Int × α)) (key : String) (now ttl : Int)
    (e : ε) (d : α)
    (hmiss : ∀ ts data, cache.lookup key = some (ts, data) → ¬(now - ts < ttl)) :
    getOrFetch cache key now ttl (Except.error e : Except ε α) =
      ⟨Except.error e, cache, true⟩ ∧
    getOrFetch cache key now ttl (Except.ok d : Except ε α) =
      ⟨Except.ok d, (key, now, d) :: cache, true⟩ := by
  unfold getOrFetch
  cases h : cache.lookup key with
  | none => exact ⟨rfl, rfl⟩
  | some v =>
    obtain ⟨ts, data⟩ := v
    have : cache_fresh now ts ttl = false := by
      simpa [cache_fresh] using hmiss ts data h
    simp [this]

/-- Witness for C7: a stale entry for "k" at timestamp 0 read at time 200 with
ttl 120; the failing fetch leaves the cache unchanged. -/
theorem failed_fetch_not_cached_witness :
    getOrFetch [("k", (0 : Int), [5])] "k" 200 120
      (Except.error 7 : Except Nat (List Nat)) =
      ⟨Except.error 7, [("k", (0 : Int), [5])], true⟩ ∧
    getOrFetch [("k", (0 : Int), [5])] "k" 200 120
      (Except.ok [9] : Except Nat (List Nat)) =
      ⟨Except.ok [9], ("k", (200 : Int), [9]) :: [("k", (0 : Int), [5])], true⟩ :=
  failed_fetch_not_cached [("k", (0 : Int), [5])] "k" 200 120 7 [9]
    (by intro ts data h; simp_all; omega)

/-- C4: whenever a truthy cached token exists and the current time is strictly
before the stored expiry minus the skew margin, get_access_token returns the
cached token unchanged with no network call (third component false) and the
token state unmodified. -/
theorem cached_token_reused (st : TokenState) (now : Int) (x : TokenExchange)
    (htok : pyTruthyStr st.token = true) (hfresh : now < st.expiry - tokenSkew) :
    get_access_token st now x = Except.ok (st.token.getD "", st, false) := by
  have hlt : now < st.expiry := by
    have : (0 : Int) < tokenSkew := by decide
    omega
  simp [get_access_token, htok, not_le.mpr hlt]

/-- Witness for C4: token "tok" with expiry 1000 queried at time 0. -/
theorem cached_token_reused_witness :
    get_access_token ⟨some "tok", 1000⟩ 0 ⟨200, "new", none⟩ =
      Except.ok ("tok", ⟨some "tok", 1000⟩, false) :=
  cached_token_reused ⟨some "tok", 1000⟩ 0 ⟨200, "new", none⟩ (by decide) (by decide)

/-- C9: a successful credential exchange declaring lifetime L stores expiry
now + max(60, L - skew) with skew = 60, which is always at least 60 seconds in
the future. -/
theorem token_expiry_floor (now : Int) (x : TokenExchange) (L : Int)
    (hstatus : x.status = 200) (hL : x.expires_in = some L) :
    fetch_access_token now x =
      Except.ok (x.access_token,
        ⟨some x.access_token, now + max 60 (L - tokenSkew)⟩) ∧
    now + 60 ≤ now + max 60 (L - tokenSkew) := by
  constructor
  · simp [fetch_access_token, hstatus, hL]
  · have : (60 : Int) ≤ max 60 (L - tokenSkew) := le_max_left _ _
    omega

/-- Witness for C9: a provider declaring a zero lifetime still yields an expiry
60 seconds out. -/
theorem token_expiry_floor_witness :
    fetch_access_token 0 ⟨200, "t", some 0⟩ =
      Except.ok ("t", ⟨some "t", 0 + max 60 ((0 : Int) - tokenSkew)⟩) ∧
    (0 : Int) + 60 ≤ 0 + max 60 ((0 : Int) - tokenSkew) :=
  token_expiry_floor 0 ⟨200, "t", some 0⟩ 0 rfl rfl

/-- The code-point comparison is asymmetric. -/
theorem pyStrLtList_asymm : ∀ a b : List Char,
    pyStrLtList a b = true → pyStrLtList b a = false := by
  intro a
  induction a with
  | nil => intro b h; cases b <;> simp_all [pyStrLtList]
  | cons x xs ih =>
    intro b h
    cases b with
    | nil => simp_all [pyStrLtList]
    | cons y ys =>
      simp only [pyStrLtList] at h ⊢
      split_ifs at h ⊢ <;> first | rfl | omega | exact ih ys h

/-- Not-below is transitive: if b is not below a and c is not below b then c
is not below a. -/
theorem pyStrLtList_false_trans : ∀ a b c : List Char,
    pyStrLtList a b = false → pyStrLtList b c = false →
    pyStrLtList a c = false := by
  intro a
  induction a with
  | nil =>
    intro b c h1 h2
    cases b <;> cases c <;> simp_all [pyStrLtList]
  | cons x xs ih =>
    intro b c h1 h2
    cases b with
    | nil => cases c <;> simp_all [pyStrLtList]
    | cons y ys =>
      cases c with
      | nil => simp [pyStrLtList]
      | cons z zs =>
        simp only [pyStrLtList] at h1 h2 ⊢
        split_ifs at h1 h2 ⊢ <;>
          first | rfl | omega | exact ih ys zs h1 h2

/-- Only the empty string is pyStrLe-below the empty string. -/
theorem pyStrLe_empty (s : String) (h : pyStrLe s "" = true) : s = "" := by
  obtain ⟨d⟩ := s
  cases d with
  | nil => rfl
  | cons c cs => simp [pyStrLe, pyStrLtList] at h

/-- C6 counterexample: a marketinsight record whose configured title field
(jdas_marketcategory) holds only whitespace while a generic "name" field holds
usable text.  Under the claim's fallback the record would normalize to a card
titled from the name field; the code consults no fallback and yields no
Card. -/
theorem normalize_no_name_fallback_counterexample :
    _safe_text (row_get [("jdas_marketcategory", PyVal.vstr "   "),
      ("name", PyVal.vstr "Fallback Name")] "name") = some "Fallback Name" ∧
    normalize_row [("jdas_marketcategory", PyVal.vstr "   "),
      ("name", PyVal.vstr "Fallback Name")] "marketinsight" = none := by
  constructor <;> decide

/-- C6 (amended): normalize_row derives the title solely from the
descriptor's configured title field, with no fallback: whenever that field's
text is absent or strips to empty the record yields no Card (silently
excluded, in particular for a record whose mapped fields are all whitespace),
and any card actually produced has exactly that field's stripped text as its
title. -/
theorem normalize_title_required (row : Row) (table_key : String)
    (mapping : List (String × String))
    (hm : List.lookup table_key TABLE_MAPPINGS = some mapping) :
    (_safe_text (row_get row (dict_get mapping "title" "")) = none →
      normalize_row row table_key = none) ∧
    (∀ c, normalize_row row table_key = some c →
      _safe_text (row_get row (dict_get mapping "title" "")) = some c.title) := by
  constructor
  · intro h
    simp [normalize_row, hm, h]
  · intro c hc
    simp only [normalize_row, hm] at hc
    cases h : _safe_text (row_get row (dict_get mapping "title" "")) with
    | none => rw [h] at hc; simp at hc
    | some t =>
      rw [h] at hc
      simp only [Option.some.injEq] at hc
      rw [← hc]

/-- Witness for C6's amended theorem: a marketinsight record with only
whitespace in every mapped field normalizes to nothing. -/
theorem normalize_title_required_witness :
    normalize_row [("jdas_marketcategory", PyVal.vstr " "),
      ("jdas_marketsizeoverview", PyVal.vstr " "),
      ("jdas_markettrends", PyVal.vstr "\t"),
      ("jdas_businessimpactanalysis", PyVal.vstr " "),
      ("createdon", PyVal.vstr " ")] "marketinsight" = none :=
  (normalize_title_required _ "marketinsight"
    [("title", "jdas_marketcategory"), ("subtitle", "jdas_marketsizeoverview"),
     ("body", "jdas_markettrends"), ("details", "jdas_businessimpactanalysis")]
    (by decide)).1 (by decide)

/-- The aggregated items are exactly the successful payloads' cards. -/
theorem mem_aggregate_items (pairs : List (String × Except String CardsPayload))
    (c : Card) :
    c ∈ (aggregate_industry pairs).items ↔
      ∃ pr ∈ pairs, ∃ p, pr.2 = Except.ok p ∧ c ∈ p.items := by
  simp only [aggregate_industry, List.mem_mergeSort, List.mem_flatten,
    List.mem_map]
  constructor
  · rintro ⟨l, ⟨pr, hpr, rfl⟩, hc⟩
    cases h : pr.2 with
    | error e => simp [ok_items, h] at hc
    | ok p => exact ⟨pr, hpr, p, h, by simpa [ok_items, h] using hc⟩
  · rintro ⟨pr, hpr, p, hp, hc⟩
    exact ⟨ok_items pr, ⟨pr, hpr, rfl⟩, by simpa [ok_items, hp] using hc⟩

/-- The aggregated items list is pairwise descending on the created key. -/
theorem aggregate_items_pairwise
    (pairs : List (String × Except String CardsPayload)) :
    (aggregate_industry pairs).items.Pairwise
      (fun a b => pyStrLe (_created_key b) (_created_key a) = true) := by
  show ((pairs.map ok_items).flatten.mergeSort
      (fun a b => pyStrLe (_created_key b) (_created_key a))).Pairwise _
  refine List.sorted_mergeSort ?_ ?_ _
  · intro a b c hab hbc
    simp only [pyStrLe, Bool.not_eq_true'] at hab hbc ⊢
    exact pyStrLtList_false_trans _ _ _ hab hbc
  · intro a b
    cases h : pyStrLtList (_created_key a).data (_created_key b).data with
    | false => simp [pyStrLe, h]
    | true =>
      have h2 := pyStrLtList_asymm _ _ h
      simp [pyStrLe, h, h2]

/-- C5: when some member tables fail and others succeed, the aggregation
still returns an ok block, with exactly one status entry per member table in
member order — a failed table's entry is marked not-ok and carries the error,
a successful table's entry is ok and carries its card count — and the items
are exactly the successful tables' cards combined, sorted descending on the
created key. -/
theorem industry_failure_isolation
    (pairs : List (String × Except String CardsPayload))
    (hfail : ∃ pr ∈ pairs, ∃ e, pr.2 = Except.error e)
    (hok : ∃ pr ∈ pairs, ∃ p, pr.2 = Except.ok p) :
    (aggregate_industry pairs).ok = true ∧
    (aggregate_industry pairs).tables.length = pairs.length ∧
    (∀ i (h : i < pairs.length)
      (h2 : i < (aggregate_industry pairs).tables.length),
      ((aggregate_industry pairs).tables[i]).table_key = (pairs[i]).1 ∧
      (∀ e, (pairs[i]).2 = Except.error e →
        ((aggregate_industry pairs).tables[i]).ok = false ∧
        ((aggregate_industry pairs).tables[i]).error = some e) ∧
      (∀ p, (pairs[i]).2 = Except.ok p →
        ((aggregate_industry pairs).tables[i]).ok = true ∧
        ((aggregate_industry pairs).tables[i]).count_cards =
          some p.count_cards)) ∧
    (∀ c, c ∈ (aggregate_industry pairs).items ↔
      ∃ pr ∈ pairs, ∃ p, pr.2 = Except.ok p ∧ c ∈ p.items) ∧
    (aggregate_industry pairs).items.Pairwise
      (fun a b => pyStrLe (_created_key b) (_created_key a) = true) := by
  have htab : (aggregate_industry pairs).tables = pairs.map table_meta := rfl
  refine ⟨rfl, by simp [htab], ?_, mem_aggregate_items pairs,
    aggregate_items_pairwise pairs⟩
  intro i h h2
  have hget : (aggregate_industry pairs).tables[i] = table_meta (pairs[i]) := by
    simp [htab]
  rw [hget]
  refine ⟨?_, ?_, ?_⟩
  · cases hp : (pairs[i]).2 <;> simp [table_meta, hp]
  · intro e he; simp [table_meta, he]
  · intro p hp; simp [table_meta, hp]

/-- Witness for C5: three member tables where the second fails and the first
and third succeed. -/
theorem industry_failure_isolation_witness :
    (aggregate_industry [
      ("t1", Except.ok ⟨"Table One", some "l1", 1,
        [⟨none, some "l1", some "l1", "t1", "Table One", "A", none, none,
          none, none, some "2025-01-01T00:00:00Z"⟩]⟩),
      ("t2", Except.error "boom"),
      ("t3", Except.ok ⟨"Table Three", some "l3", 1,
        [⟨none, some "l3", some "l3", "t3", "Table Three", "B", none, none,
          none, none, some "2025-06-01T00:00:00Z"⟩]⟩)]).ok = true ∧
    (aggregate_industry [
      ("t1", Except.ok ⟨"Table One", some "l1", 1,
        [⟨none, some "l1", some "l1", "t1", "Table One", "A", none, none,
          none, none, some "2025-01-01T00:00:00Z"⟩]⟩),
      ("t2", Except.error "boom"),
      ("t3", Except.ok ⟨"Table Three", some "l3", 1,
        [⟨none, some "l3", some "l3", "t3", "Table Three", "B", none, none,
          none, none, some "2025-06-01T00:00:00Z"⟩]⟩)]).tables.length = 3 ∧
    (aggregate_industry [
      ("t1", Except.ok ⟨"Table One", some "l1", 1,
        [⟨none, some "l1", some "l1", "t1", "Table One", "A", none, none,
          none, none, some "2025-01-01T00:00:00Z"⟩]⟩),
      ("t2", Except.error "boom"),
      ("t3", Except.ok ⟨"Table Three", some "l3", 1,
        [⟨none, some "l3", some "l3", "t3", "Table Three", "B", none, none,
          none, none, some "2025-06-01T00:00:00Z"⟩]⟩)]).items.Pairwise
      (fun a b => pyStrLe (_created_key b) (_created_key a) = true) := by
  have h := industry_failure_isolation [
      ("t1", Except.ok ⟨"Table One", some "l1", 1,
        [⟨none, some "l1", some "l1", "t1", "Table One", "A", none, none,
          none, none, some "2025-01-01T00:00:00Z"⟩]⟩),
      ("t2", Except.error "boom"),
      ("t3", Except.ok ⟨"Table Three", some "l3", 1,
        [⟨none, some "l3", some "l3", "t3", "Table Three", "B", none, none,
          none, none, some "2025-06-01T00:00:00Z"⟩]⟩)]
    ⟨("t2", Except.error "boom"), by simp, "boom", rfl⟩
    ⟨("t1", Except.ok ⟨"Table One", some "l1", 1,
        [⟨none, some "l1", some "l1", "t1", "Table One", "A", none, none,
          none, none, some "2025-01-01T00:00:00Z"⟩]⟩), by simp,
      ⟨"Table One", some "l1", 1,
        [⟨none, some "l1", some "l1", "t1", "Table One", "A", none, none,
          none, none, some "2025-01-01T00:00:00Z"⟩]⟩, rfl⟩
  exact ⟨h.1, h.2.1, h.2.2.2.2⟩

/-- C10: in an aggregated block whose cards come from the normalizer (any
present createdOn strips to non-empty text), a card whose createdOn is absent
or strips to empty — the sort key substitutes the empty string — sits after
every card carrying a non-empty createdOn. -/
theorem absent_createdOn_sorts_last
    (pairs : List (String × Except String CardsPayload))
    (hwf : ∀ pr ∈ pairs, ∀ p, pr.2 = Except.ok p → ∀ c ∈ p.items,
      ∀ s, c.createdOn = some s → pyStrip s ≠ "")
    (i j : Nat) (hi : i < (aggregate_industry pairs).items.length)
    (hj : j < (aggregate_industry pairs).items.length)
    (hempty : ((aggregate_industry pairs).items[i]).createdOn = none ∨
      ∃ s, ((aggregate_industry pairs).items[i]).createdOn = some s ∧
        pyStrip s = "")
    (hnon : ∃ s, ((aggregate_industry pairs).items[j]).createdOn =
      some s ∧ s ≠ "") : j < i := by
  have hwf' : ∀ c ∈ (aggregate_industry pairs).items, ∀ s,
      c.createdOn = some s → pyStrip s ≠ "" := by
    intro c hc s hs
    rw [mem_aggregate_items] at hc
    obtain ⟨pr, hpr, p, hp, hcp⟩ := hc
    exact hwf pr hpr p hp c hcp s hs
  have hkeyi : _created_key ((aggregate_industry pairs).items[i]) = "" := by
    rcases hempty with h | ⟨s, hs, hstrip⟩
    · simp [_created_key, h]
    · exact absurd hstrip
        (hwf' _ (List.getElem_mem hi) s hs)
  obtain ⟨s, hs, hsne⟩ := hnon
  have hkeyj : _created_key ((aggregate_industry pairs).items[j]) = s := by
    simp [_created_key, hs]
  by_contra hcon
  push_neg at hcon
  rcases lt_or_eq_of_le hcon with hij | hij
  · have hpw := aggregate_items_pairwise pairs
    rw [List.pairwise_iff_get] at hpw
    have hle := hpw ⟨i, hi⟩ ⟨j, hj⟩ hij
    simp only [List.get_eq_getElem] at hle
    rw [hkeyi, hkeyj] at hle
    exact hsne (pyStrLe_empty s hle)
  · subst hij
    rw [hkeyj] at hkeyi
    exact hsne hkeyi

unseal List.mergeSort List.merge in
/-- Witness for C10: one successful table whose cards are a dated card and an
undated card, given in the wrong order; the aggregation sorts the dated card
first, and the theorem places the undated card (index 1) after it (index 0). -/
theorem absent_createdOn_sorts_last_witness :
    (aggregate_industry [("t", Except.ok ⟨"T", some "l", 2,
      [⟨none, some "l", some "l", "t", "T", "E", none, none, none, none, none⟩,
       ⟨none, some "l", some "l", "t", "T", "N", none, none, none, none,
         some "2025-06-01T00:00:00Z"⟩]⟩)]).items =
      [⟨none, some "l", some "l", "t", "T", "N", none, none, none, none,
         some "2025-06-01T00:00:00Z"⟩,
       ⟨none, some "l", some "l", "t", "T", "E", none, none, none, none,
         none⟩] ∧
    (0 : Nat) < 1 := by
  constructor
  · decide
  · refine absent_createdOn_sorts_last [("t", Except.ok ⟨"T", some "l", 2,
      [⟨none, some "l", some "l", "t", "T", "E", none, none, none, none, none⟩,
       ⟨none, some "l", some "l", "t", "T", "N", none, none, none, none,
         some "2025-06-01T00:00:00Z"⟩]⟩)] ?_ 1 0 (by decide) (by decide)
      (Or.inl (by decide)) ⟨"2025-06-01T00:00:00Z", by decide, by decide⟩
    intro pr hpr p hp c hc s hs
    simp only [List.mem_singleton] at hpr
    subst hpr
    cases hp
    simp only [List.mem_cons, List.mem_singleton, List.not_mem_nil,
      or_false] at hc
    rcases hc with rfl | rfl
    · cases hs
    · cases hs
      decide

/-- digitChar yields plain digit characters below ten, never the pipe
separator. -/
theorem digitChar_lt_ten_ne_pipe : ∀ a < 10, Nat.digitChar a ≠ '|' := by
  decide

/-- Decimal toDigitsCore only prepends digit characters, so it preserves
freedom from the pipe separator. -/
theorem toDigitsCore_sep_free :
    ∀ (f n : Nat) (ds : List Char), (∀ c ∈ ds, c ≠ '|') →
      ∀ c ∈ Nat.toDigitsCore 10 f n ds, c ≠ '|' := by
  intro f
  induction f with
  | zero => intro n ds h c hc; exact h c hc
  | succ f ih =>
    intro n ds h c hc
    have hdigit : Nat.digitChar (n % 10) ≠ '|' :=
      digitChar_lt_ten_ne_pipe (n % 10) (Nat.mod_lt n (by omega))
    simp only [Nat.toDigitsCore] at hc
    split at hc
    · rcases List.mem_cons.mp hc with rfl | hmem
      · exact hdigit
      · exact h c hmem
    · refine ih (n / 10) (Nat.digitChar (n % 10) :: ds) ?_ c hc
      intro x hx
      rcases List.mem_cons.mp hx with rfl | hx2
      · exact hdigit
      · exact h x hx2

/-- The decimal rendering of a natural number contains no pipe character. -/
theorem repr_sep_free (n : Nat) : ∀ c ∈ (Nat.repr n).data, c ≠ '|' := by
  intro c hc
  exact toDigitsCore_sep_free (n + 1) n [] (by intro x hx; cases hx) c hc

/-- The accumulator of toDigitsCore is just appended to the digits. -/
theorem toDigitsCore_append (b : Nat) :
    ∀ (f n : Nat) (ds : List Char),
      Nat.toDigitsCore b f n ds = Nat.toDigitsCore b f n [] ++ ds := by
  intro f
  induction f with
  | zero => intro n ds; simp [Nat.toDigitsCore]
  | succ f ih =>
    intro n ds
    simp only [Nat.toDigitsCore]
    by_cases h : n / b = 0
    · simp [h]
    · rw [if_neg h, if_neg h, ih (n / b) [Nat.digitChar (n % b)],
        ih (n / b) (Nat.digitChar (n % b) :: ds), List.append_assoc]
      rfl

/-- With enough fuel, toDigitsCore produces the reversed decimal digits of n
rendered by digitChar. -/
theorem toDigitsCore_eq_digits (n : Nat) : 0 < n → ∀ f, n ≤ f →
    Nat.toDigitsCore 10 f n [] =
      ((Nat.digits 10 n).map Nat.digitChar).reverse := by
  induction n using Nat.strong_induction_on with
  | _ n ih =>
    intro hn f hf
    obtain ⟨f, rfl⟩ : ∃ g, f = g + 1 := ⟨f - 1, by omega⟩
    rw [Nat.toDigitsCore]
    by_cases h10 : n / 10 = 0
    · rw [if_pos h10, Nat.digits_def' (by norm_num : (1 : Nat) < 10) hn, h10,
        Nat.digits_zero]
      simp
    · have hdiv_lt : n / 10 < n := Nat.div_lt_self hn (by norm_num)
      have hdiv_pos : 0 < n / 10 := Nat.pos_of_ne_zero h10
      rw [if_neg h10, toDigitsCore_append 10 f (n / 10),
        ih (n / 10) hdiv_lt hdiv_pos f (by omega),
        Nat.digits_def' (by norm_num : (1 : Nat) < 10) hn]
      simp

/-- digitChar is injective on digits. -/
theorem digitChar_inj_lt : ∀ a < 10, ∀ b < 10,
    Nat.digitChar a = Nat.digitChar b → a = b := by decide

/-- Mapping digitChar over digit lists is injective. -/
theorem map_digitChar_inj : ∀ l1 l2 : List Nat, (∀ d ∈ l1, d < 10) →
    (∀ d ∈ l2, d < 10) → l1.map Nat.digitChar = l2.map Nat.digitChar →
    l1 = l2 := by
  intro l1
  induction l1 with
  | nil =>
    intro l2 _ _ h
    cases l2 with
    | nil => rfl
    | cons e es => simp at h
  | cons d ds ih =>
    intro l2 h1 h2 h
    cases l2 with
    | nil => simp at h
    | cons e es =>
      simp only [List.map_cons, List.cons.injEq] at h
      have hd : d = e := digitChar_inj_lt d (h1 d (by simp)) e (h2 e (by simp)) h.1
      rw [hd, ih es (fun x hx => h1 x (List.mem_cons_of_mem _ hx))
        (fun x hx => h2 x (List.mem_cons_of_mem _ hx)) h.2]

/-- The decimal rendering of a natural number determines it. -/
theorem nat_repr_injective (m n : Nat) (h : Nat.repr m = Nat.repr n) :
    m = n := by
  have hdig : Nat.toDigits 10 m = Nat.toDigits 10 n :=
    List.asString_inj.mp h
  have hzero : Nat.toDigits 10 0 = ['0'] := rfl
  have hpos : ∀ k : Nat, 0 < k →
      Nat.toDigits 10 k = ((Nat.digits 10 k).map Nat.digitChar).reverse :=
    fun k hk => toDigitsCore_eq_digits k hk (k + 1) (by omega)
  have hnonzero : ∀ k : Nat, 0 < k → Nat.toDigits 10 k = ['0'] → False := by
    intro k hk hcon
    rw [hpos k hk] at hcon
    have hmap : (Nat.digits 10 k).map Nat.digitChar = ['0'] := by
      have := congrArg List.reverse hcon
      simpa using this
    have hdigits : Nat.digits 10 k = [0] := by
      refine map_digitChar_inj _ [0] ?_ ?_ ?_
      · intro d hd; exact Nat.digits_lt_base (by norm_num) hd
      · intro d hd; simp only [List.mem_singleton] at hd; omega
      · simpa using hmap
    have := Nat.ofDigits_digits 10 k
    rw [hdigits, Nat.ofDigits_singleton] at this
    omega
  rcases Nat.eq_zero_or_pos m with rfl | hm <;>
    rcases Nat.eq_zero_or_pos n with rfl | hn
  · rfl
  · exact absurd (hdig.symm.trans hzero) (fun hc => hnonzero n hn hc)
  · exact absurd (hdig.trans hzero) (fun hc => hnonzero m hm hc)
  · rw [hpos m hm, hpos n hn] at hdig
    have hmap := List.reverse_injective hdig
    have hdigits : Nat.digits 10 m = Nat.digits 10 n := by
      refine map_digitChar_inj _ _ ?_ ?_ hmap
      · intro d hd; exact Nat.digits_lt_base (by norm_num) hd
      · intro d hd; exact Nat.digits_lt_base (by norm_num) hd
    calc m = Nat.ofDigits 10 (Nat.digits 10 m) := (Nat.ofDigits_digits 10 m).symm
      _ = Nat.ofDigits 10 (Nat.digits 10 n) := by rw [hdigits]
      _ = n := Nat.ofDigits_digits 10 n

/-- Splitting character lists at a separator absent from both left parts. -/
theorem append_sep_inj (c : Char) :
    ∀ a a' b b' : List Char, (∀ x ∈ a, x ≠ c) → (∀ x ∈ a', x ≠ c) →
      a ++ c :: b = a' ++ c :: b' → a = a' ∧ b = b' := by
  intro a
  induction a with
  | nil =>
    intro a' b b' _ ha' h
    cases a' with
    | nil => simpa using h
    | cons y ys =>
      simp only [List.nil_append, List.cons_append, List.cons.injEq] at h
      exact absurd h.1.symm (ha' y (by simp))
  | cons x xs ih =>
    intro a' b b' ha ha' h
    cases a' with
    | nil =>
      simp only [List.cons_append, List.nil_append, List.cons.injEq] at h
      exact absurd h.1 (ha x (by simp))
    | cons y ys =>
      simp only [List.cons_append, List.cons.injEq] at h
      obtain ⟨rfl, h2⟩ := h
      obtain ⟨h3, h4⟩ := ih ys b b'
        (fun z hz => ha z (List.mem_cons_of_mem _ hz))
        (fun z hz => ha' z (List.mem_cons_of_mem _ hz)) h2
      exact ⟨by rw [h3], h4⟩

/-- The character list underlying a cache key, segment by segment. -/
theorem cacheKey_data (tk es : String) (top : Nat) (ob : String)
    (ex : Option String) :
    (cacheKey tk es top ob ex).data =
      tk.data ++ '|' :: (es.data ++ '|' :: ((Nat.repr top).data ++ '|' ::
        (ob.data ++ '|' :: ((ex.getD "").data ++ '|' ::
          ['A', 'L', 'L'])))) := by
  simp [cacheKey, String.data_append]

/-- C8 counterexample: two fetches that differ in both sort order and filter
fragment — orderby "x|y" with no extra versus orderby "x" with extra "y|" —
produce the same cache key, so they share a cache entry. -/
theorem cacheKey_collision_counterexample :
    cacheKey "marketinsight" "jdas_marketinsights" 10 "x|y" none =
      cacheKey "marketinsight" "jdas_marketinsights" 10 "x" (some "y|") ∧
    ("x|y", (none : Option String)) ≠ ("x", some "y|") := by
  constructor <;> decide

/-- C8 (amended): the cache key is injective in table key, entity set, row
limit, sort order and normalized filter fragment (extra-or-empty), provided
none of the interpolated string parameters contains the pipe separator. -/
theorem cacheKey_injective_on_pipe_free
    (tk1 es1 : String) (top1 : Nat) (ob1 : String) (ex1 : Option String)
    (tk2 es2 : String) (top2 : Nat) (ob2 : String) (ex2 : Option String)
    (htk1 : ∀ x ∈ tk1.data, x ≠ '|') (hes1 : ∀ x ∈ es1.data, x ≠ '|')
    (hob1 : ∀ x ∈ ob1.data, x ≠ '|')
    (hex1 : ∀ x ∈ (ex1.getD "").data, x ≠ '|')
    (htk2 : ∀ x ∈ tk2.data, x ≠ '|') (hes2 : ∀ x ∈ es2.data, x ≠ '|')
    (hob2 : ∀ x ∈ ob2.data, x ≠ '|')
    (hex2 : ∀ x ∈ (ex2.getD "").data, x ≠ '|')
    (heq : cacheKey tk1 es1 top1 ob1 ex1 = cacheKey tk2 es2 top2 ob2 ex2) :
    tk1 = tk2 ∧ es1 = es2 ∧ top1 = top2 ∧ ob1 = ob2 ∧
      ex1.getD "" = ex2.getD "" := by
  have hd := congrArg String.data heq
  rw [cacheKey_data, cacheKey_data] at hd
  obtain ⟨h1, hd⟩ := append_sep_inj '|' _ _ _ _ htk1 htk2 hd
  obtain ⟨h2, hd⟩ := append_sep_inj '|' _ _ _ _ hes1 hes2 hd
  obtain ⟨h3, hd⟩ := append_sep_inj '|' _ _ _ _ (repr_sep_free top1)
    (repr_sep_free top2) hd
  obtain ⟨h4, hd⟩ := append_sep_inj '|' _ _ _ _ hob1 hob2 hd
  obtain ⟨h5, _⟩ := append_sep_inj '|' _ _ _ _ hex1 hex2 hd
  have hstr : ∀ s t : String, s.data = t.data → s = t := by
    intro s t h
    cases s
    cases t
    exact congrArg String.mk h
  refine ⟨hstr _ _ h1, hstr _ _ h2, ?_, hstr _ _ h4, hstr _ _ h5⟩
  exact nat_repr_injective top1 top2 (hstr _ _ h3)

/-- Witness for C8's amended theorem at concrete pipe-free parameters. -/
theorem cacheKey_injective_witness :
    ("marketinsight" : String) = "marketinsight" ∧
    ("jdas_marketinsights" : String) = "jdas_marketinsights" ∧
    (10 : Nat) = 10 ∧ ("createdon desc" : String) = "createdon desc" ∧
    (Option.getD (none : Option String) "") = Option.getD none "" :=
  cacheKey_injective_on_pipe_free "marketinsight" "jdas_marketinsights" 10
    "createdon desc" none "marketinsight" "jdas_marketinsights" 10
    "createdon desc" none (by decide) (by decide) (by decide) (by decide)
    (by decide) (by decide) (by decide) (by decide) rfl

end JDAS
